import Mathlib

/-!
Verification of the constellation-viewer sky-chart pipeline.

The development shallowly embeds the core of the repository:

* `SkyCalculator.project_to_stereographic` and `SkyCalculator.get_horizon_circle`
  (`sky_calculator.py`), embedded over `ℝ` with `Real.sin`/`Real.cos`/`Real.tan`;
* `SkyCalculator.calculate_star_positions` (`sky_calculator.py`), embedded
  generically over a linear ordered field, with the external astropy
  celestial-to-horizontal transform passed in as a function parameter `altaz`;
* `SkyRenderer.calculate_star_size`, `SkyRenderer.draw_stars`,
  `SkyRenderer.draw_constellation_lines`, `SkyRenderer.project_star_position`
  and `SkyRenderer.render_sky` (`sky_renderer.py`).

Python dictionaries (insertion ordered) are embedded as association lists;
a star record's optional `magnitude` key becomes an `Option` field.
-/

namespace ConstellationViewer

/-- A catalog star record: `{'ra': .., 'dec': .., 'magnitude': ..}`.
The `magnitude` key may be absent (`star_data.get('magnitude', 5.0)` in
`calculate_star_positions`), hence an `Option` field. -/
structure StarRecord (α : Type) where
  ra : α
  dec : α
  magnitude : Option α
deriving DecidableEq

/-- An entry of the `star_positions` dictionary built by
`SkyCalculator.calculate_star_positions`. -/
structure StarPos (α : Type) where
  ra : α
  dec : α
  altitude : α
  azimuth : α
  magnitude : α
  visible : Bool
deriving DecidableEq

/-- A drawing primitive emitted to the matplotlib canvas.  Text content of the
title block is abstracted to the raw latitude/longitude numbers (string
formatting is a canvas concern); the zenith `+` marker gets its own
constructor so it is not conflated with star points. -/
inductive Primitive (α : Type) where
  | circle (radius : α) (dashed : Bool)
  | text (x y : α) (label : String)
  | point (x y size : α)
  | segment (x1 y1 x2 y2 : α)
  | marker (x y : α)
  | title (lat lon : α)
deriving DecidableEq

/-- `np.radians`: degrees to radians. -/
noncomputable def radians (d : ℝ) : ℝ := d * Real.pi / 180

/-- `SkyCalculator.project_to_stereographic` (sky_calculator.py, lines 176-202):
zenith distance `π/2 - alt`, radius `tan(zd/2)`, then polar-to-cartesian with
azimuth measured from North going East. -/
noncomputable def project_to_stereographic (altitude azimuth : ℝ) : ℝ × ℝ :=
  let alt_rad := radians altitude
  let az_rad := radians azimuth
  let zenith_distance := Real.pi / 2 - alt_rad
  let r := Real.tan (zenith_distance / 2)
  (r * Real.sin az_rad, r * Real.cos az_rad)

/-- `SkyRenderer.project_star_position` (sky_renderer.py, lines 211-234): the
renderer's own copy of the stereographic projection. -/
noncomputable def project_star_position (altitude azimuth : ℝ) : ℝ × ℝ :=
  let alt_rad := radians altitude
  let az_rad := radians azimuth
  let zenith_distance := Real.pi / 2 - alt_rad
  let r := Real.tan (zenith_distance / 2)
  (r * Real.sin az_rad, r * Real.cos az_rad)

/-- `np.linspace a b n` with the default `endpoint=True`, as used at
sky_calculator.py line 214: `n` evenly spaced samples including both ends. -/
noncomputable def linspace (a b : ℝ) (n : ℕ) : List ℝ :=
  (List.range n).map (fun i : ℕ => a + (b - a) * i / ((n : ℝ) - 1))

/-- `SkyCalculator.get_horizon_circle` (sky_calculator.py, lines 204-223):
project azimuth samples at altitude 0 and collect x- and y-coordinates. -/
noncomputable def get_horizon_circle (num_points : ℕ) : List ℝ × List ℝ :=
  let azimuths := linspace 0 360 num_points
  (azimuths.map (fun az => (project_to_stereographic 0 az).1),
   azimuths.map (fun az => (project_to_stereographic 0 az).2))

/-- `SkyRenderer.calculate_star_size` (sky_renderer.py, lines 119-137) with the
renderer's fixed `star_sizes` configuration `min_size = 1`, `max_size = 8`,
`magnitude_range = 6`. -/
def calculate_star_size {α : Type} [LinearOrderedField α] (magnitude : α) : α :=
  let mag := max 0 (min magnitude 6)
  let size_range := (8 : α) - 1
  8 - mag / 6 * size_range

/-- `SkyCalculator.calculate_star_positions` (sky_calculator.py, lines
126-157).  The external astropy transform `celestial_to_horizontal` (location
and instant fixed) is the parameter `altaz : ra → dec → (altitude, azimuth)`. -/
def calculate_star_positions {α : Type} [LinearOrderedField α]
    (altaz : α → α → α × α) (stars : List (ℕ × StarRecord α)) :
    List (ℕ × StarPos α) :=
  stars.map (fun s =>
    let ra := s.2.ra
    let dec := s.2.dec
    let aa := altaz ra dec
    (s.1, { ra := ra, dec := dec, altitude := aa.1, azimuth := aa.2,
            magnitude := s.2.magnitude.getD 5,
            visible := decide (aa.1 > 0) }))

/-- The body of the star loop in `SkyRenderer.draw_stars` (sky_renderer.py,
lines 147-172): skip when not visible, skip when `x*x + y*y > 4`, otherwise
emit a sized point. -/
def emit_star {α : Type} [LinearOrderedField α]
    (proj : α → α → α × α) (s : ℕ × StarPos α) : Option (Primitive α) :=
  if !s.2.visible then none
  else
    let p := proj s.2.altitude s.2.azimuth
    if p.1 * p.1 + p.2 * p.2 > 4 then none
    else some (Primitive.point p.1 p.2 (calculate_star_size s.2.magnitude))

/-- `SkyRenderer.draw_stars` (sky_renderer.py, lines 139-172), with the
projection `project_star_position` passed as the parameter `proj`. -/
def draw_stars {α : Type} [LinearOrderedField α]
    (proj : α → α → α × α) (star_positions : List (ℕ × StarPos α)) :
    List (Primitive α) :=
  star_positions.filterMap (emit_star proj)

/-- `StarCatalog.get_all_constellations` (star_catalog.py, lines 136-138). -/
def get_all_constellations
    (constellations : List (String × List (ℕ × ℕ))) : List String :=
  constellations.map Prod.fst

/-- `StarCatalog.get_constellation_lines` (star_catalog.py, lines 128-130):
`self.constellations.get(name, {}).get('lines', [])`. -/
def get_constellation_lines
    (constellations : List (String × List (ℕ × ℕ))) (name : String) :
    List (ℕ × ℕ) :=
  (constellations.lookup name).getD []

/-- The body of the edge loop in `SkyRenderer.draw_constellation_lines`
(sky_renderer.py, lines 186-209): emit a segment only when both endpoint ids
are present in `star_positions` and both are marked visible. -/
def emit_edge {α : Type} [LinearOrderedField α]
    (proj : α → α → α × α) (star_positions : List (ℕ × StarPos α))
    (line : ℕ × ℕ) : Option (Primitive α) :=
  match star_positions.lookup line.1, star_positions.lookup line.2 with
  | some p1, some p2 =>
    if p1.visible && p2.visible then
      let a := proj p1.altitude p1.azimuth
      let b := proj p2.altitude p2.azimuth
      some (Primitive.segment a.1 a.2 b.1 b.2)
    else none
  | _, _ => none

/-- `SkyRenderer.draw_constellation_lines` (sky_renderer.py, lines 174-209). -/
def draw_constellation_lines {α : Type} [LinearOrderedField α]
    (proj : α → α → α × α) (star_positions : List (ℕ × StarPos α))
    (constellations : List (String × List (ℕ × ℕ))) : List (Primitive α) :=
  (get_all_constellations constellations).flatMap (fun name =>
    (get_constellation_lines constellations name).filterMap
      (emit_edge proj star_positions))

/-- `SkyCalculator.get_cardinal_directions` (sky_calculator.py, lines
159-174): a static table. -/
def get_cardinal_directions : List (String × ℝ) :=
  [("North", 0), ("East", 90), ("South", 180), ("West", 270)]

/-- `SkyRenderer.draw_horizon_and_grid` (sky_renderer.py, lines 68-117):
horizon circle of radius 1, dashed altitude circles at 30° and 60° when their
radius is below the plot limit 2, and cardinal labels placed at the horizon
scaled outward by 1.1. -/
noncomputable def draw_horizon_and_grid : List (Primitive ℝ) :=
  [Primitive.circle 1 false]
  ++ ([(30 : ℝ), 60].filterMap (fun alt =>
      let r := Real.tan ((Real.pi / 2 - radians alt) / 2)
      if r < 2 then some (Primitive.circle r true) else none))
  ++ (get_cardinal_directions.map (fun d =>
      let p := project_to_stereographic 0 d.2
      Primitive.text (p.1 * 1.1) (p.2 * 1.1) d.1))

/-- `SkyRenderer.add_title_and_info` (sky_renderer.py, lines 236-276): title
block (modelled by its latitude/longitude payload), zenith `+` marker at the
origin and the `Zenith` label. -/
def add_title_and_info (latitude longitude : ℝ) : List (Primitive ℝ) :=
  [Primitive.title latitude longitude,
   Primitive.marker 0 0,
   Primitive.text 0 (-0.1) "Zenith"]

/-- `SkyRenderer.render_sky` (sky_renderer.py, lines 278-327): grid, then
stars, then constellation lines, then title.  The catalog contents and the
astropy transform (for the fixed location and instant) are passed in;
the source builds them from its collaborators before this sequence. -/
noncomputable def render_sky (altaz : ℝ → ℝ → ℝ × ℝ)
    (stars : List (ℕ × StarRecord ℝ))
    (constellations : List (String × List (ℕ × ℕ)))
    (latitude longitude : ℝ) : List (Primitive ℝ) :=
  let star_positions := calculate_star_positions altaz stars
  draw_horizon_and_grid
    ++ draw_stars project_star_position star_positions
    ++ draw_constellation_lines project_star_position star_positions
        constellations
    ++ add_title_and_info latitude longitude

/-- Altitude 0° projects onto the unit circle, for every azimuth: shared by
the horizon-circle and projection-zone results. -/
theorem normSq_project_zero (az : ℝ) :
    (project_to_stereographic 0 az).1 ^ 2 + (project_to_stereographic 0 az).2 ^ 2 = 1 := by
  unfold project_to_stereographic radians
  have h : (Real.pi / 2 - 0 * Real.pi / 180) / 2 = Real.pi / 4 := by ring
  simp only [h, Real.tan_pi_div_four]
  have hsc := Real.sin_sq_add_cos_sq (az * Real.pi / 180)
  nlinarith [hsc]

/-- C1: the stereographic projection maps altitude 90° to the origin,
altitude 0° to the unit circle, and every altitude strictly between −90° and
0° strictly outside the unit circle, for every azimuth. -/
theorem project_to_stereographic_zones (az alt : ℝ)
    (h1 : -90 < alt) (h2 : alt < 0) :
    project_to_stereographic 90 az = (0, 0) ∧
    (project_to_stereographic 0 az).1 ^ 2 + (project_to_stereographic 0 az).2 ^ 2 = 1 ∧
    1 < (project_to_stereographic alt az).1 ^ 2 + (project_to_stereographic alt az).2 ^ 2 := by
  refine ⟨?_, normSq_project_zero az, ?_⟩
  · unfold project_to_stereographic radians
    have h : (Real.pi / 2 - 90 * Real.pi / 180) / 2 = 0 := by ring
    simp only [h, Real.tan_zero]
    norm_num
  · unfold project_to_stereographic radians
    dsimp only
    have hpi := Real.pi_pos
    set z := (Real.pi / 2 - alt * Real.pi / 180) / 2 with hz
    have hlo : Real.pi / 4 < z := by rw [hz]; nlinarith
    have hhi : z < Real.pi / 2 := by rw [hz]; nlinarith
    have htan : 1 < Real.tan z := by
      have := Real.tan_lt_tan_of_lt_of_lt_pi_div_two
        (x := Real.pi / 4) (y := z) (by nlinarith) hhi hlo
      simpa [Real.tan_pi_div_four] using this
    have hsc := Real.sin_sq_add_cos_sq (az * Real.pi / 180)
    have hsq : (Real.tan z * Real.sin (az * Real.pi / 180)) ^ 2 +
        (Real.tan z * Real.cos (az * Real.pi / 180)) ^ 2
        = Real.tan z ^ 2 *
          (Real.sin (az * Real.pi / 180) ^ 2 + Real.cos (az * Real.pi / 180) ^ 2) := by
      ring
    rw [hsq, hsc, mul_one]
    nlinarith [htan]

/-- Witness for C1 at azimuth 0 and altitude −45. -/
theorem project_to_stereographic_zones_witness :
    ((-90 : ℝ) < -45 ∧ (-45 : ℝ) < 0) ∧
    (project_to_stereographic 90 0 = (0, 0) ∧
     (project_to_stereographic 0 0).1 ^ 2 + (project_to_stereographic 0 0).2 ^ 2 = 1 ∧
     1 < (project_to_stereographic (-45) 0).1 ^ 2 + (project_to_stereographic (-45) 0).2 ^ 2) :=
  ⟨by norm_num, project_to_stereographic_zones 0 (-45) (by norm_num) (by norm_num)⟩

/-- C9: the renderer's copy of the stereographic projection agrees with the
calculator's at every (altitude, azimuth) pair. -/
theorem project_star_position_eq_project_to_stereographic (altitude azimuth : ℝ) :
    project_star_position altitude azimuth = project_to_stereographic altitude azimuth :=
  rfl

/-- C5: with `minSize = 1`, `maxSize = 8`, `ceiling = 6`, the star-size map
equals `8 − (clamp(m,0,6)/6)·(8−1)`, is non-increasing, is constantly 1 at or
above magnitude 6 and constantly 8 at or below 0, and takes the values 8, 1, 1
at magnitudes 0, 6, 10. -/
theorem calculate_star_size_spec {α : Type} [LinearOrderedField α]
    (m m1 m2 mhi mlo : α) (h12 : m1 ≤ m2) (hhi : 6 ≤ mhi) (hlo : mlo ≤ 0) :
    calculate_star_size m = 8 - max 0 (min m 6) / 6 * (8 - 1) ∧
    calculate_star_size m2 ≤ calculate_star_size m1 ∧
    calculate_star_size mhi = 1 ∧
    calculate_star_size mlo = 8 ∧
    calculate_star_size (0 : α) = 8 ∧
    calculate_star_size (6 : α) = 1 ∧
    calculate_star_size (10 : α) = 1 := by
  refine ⟨rfl, ?_, ?_, ?_, ?_, ?_, ?_⟩
  · unfold calculate_star_size
    have hc : max 0 (min m1 6) ≤ max 0 (min m2 6) :=
      max_le_max le_rfl (min_le_min h12 le_rfl)
    have h6 : (0 : α) < 6 := by norm_num
    nlinarith [hc]
  · unfold calculate_star_size
    rw [min_eq_right hhi]
    norm_num
  · unfold calculate_star_size
    rw [min_eq_left (le_trans hlo (by norm_num)), max_eq_left hlo]
    norm_num
  · norm_num [calculate_star_size]
  · norm_num [calculate_star_size]
  · norm_num [calculate_star_size, min_def, max_def]

/-- Witness for C5 over `ℚ` at m = 3, m1 = 1, m2 = 2, mhi = 7, mlo = −1. -/
theorem calculate_star_size_spec_witness :
    ((1 : ℚ) ≤ 2 ∧ (6 : ℚ) ≤ 7 ∧ (-1 : ℚ) ≤ 0) ∧
    (calculate_star_size (3 : ℚ) = 8 - max 0 (min 3 6) / 6 * (8 - 1) ∧
     calculate_star_size (2 : ℚ) ≤ calculate_star_size (1 : ℚ) ∧
     calculate_star_size (7 : ℚ) = 1 ∧
     calculate_star_size (-1 : ℚ) = 8 ∧
     calculate_star_size (0 : ℚ) = 8 ∧
     calculate_star_size (6 : ℚ) = 1 ∧
     calculate_star_size (10 : ℚ) = 1) :=
  ⟨by norm_num,
   calculate_star_size_spec 3 1 2 7 (-1) (by norm_num) (by norm_num) (by norm_num)⟩

/-- Every entry produced by `calculate_star_positions` carries
`visible = decide (0 < altitude)` and its altitude/azimuth come from the
transform applied to its own ra/dec. -/
theorem mem_calculate_star_positions {α : Type} [LinearOrderedField α]
    (altaz : α → α → α × α) (stars : List (ℕ × StarRecord α))
    (e : ℕ × StarPos α) (he : e ∈ calculate_star_positions altaz stars) :
    e.2.visible = decide (0 < e.2.altitude) ∧
    (e.2.altitude, e.2.azimuth) = altaz e.2.ra e.2.dec := by
  unfold calculate_star_positions at he
  obtain ⟨s, _, rfl⟩ := List.mem_map.1 he
  exact ⟨rfl, rfl⟩

/-- A successful lookup in the `calculate_star_positions` output yields an
entry whose `visible` flag is `decide (0 < altitude)`. -/
theorem lookup_calculate_star_positions {α : Type} [LinearOrderedField α]
    (altaz : α → α → α × α) (stars : List (ℕ × StarRecord α))
    (a : ℕ) (p : StarPos α)
    (h : (calculate_star_positions altaz stars).lookup a = some p) :
    p.visible = decide (0 < p.altitude) := by
  induction stars with
  | nil => simp [calculate_star_positions] at h
  | cons s t ih =>
    simp only [calculate_star_positions, List.map_cons] at h
    rw [List.lookup] at h
    cases hc : a == s.1
    · simp only [hc] at h
      exact ih h
    · simp only [hc] at h
      injection h with h
      subst h
      rfl

/-- C10: `calculate_star_positions` keeps exactly the input ids (in order),
copies ra/dec, defaults a missing magnitude to 5, takes altitude/azimuth from
the transform, and sets `visible` exactly when altitude is positive. -/
theorem calculate_star_positions_fields {α : Type} [LinearOrderedField α]
    (altaz : α → α → α × α) (stars : List (ℕ × StarRecord α)) :
    (calculate_star_positions altaz stars).map Prod.fst = stars.map Prod.fst ∧
    List.Forall₂ (fun (inp : ℕ × StarRecord α) (out : ℕ × StarPos α) =>
        out.1 = inp.1 ∧ out.2.ra = inp.2.ra ∧ out.2.dec = inp.2.dec ∧
        out.2.magnitude = inp.2.magnitude.getD 5 ∧
        (out.2.altitude, out.2.azimuth) = altaz inp.2.ra inp.2.dec ∧
        (out.2.visible = true ↔ 0 < out.2.altitude))
      stars (calculate_star_positions altaz stars) := by
  constructor
  · simp [calculate_star_positions]
  · induction stars with
    | nil => simp [calculate_star_positions]
    | cons s t ih =>
      simp only [calculate_star_positions, List.map_cons] at ih ⊢
      refine List.Forall₂.cons ⟨rfl, rfl, rfl, rfl, rfl, ?_⟩ ih
      simp

/-- C2: a catalog star contributes a point primitive to `draw_stars` exactly
when its computed altitude is positive and its projected point satisfies
`x² + y² ≤ 4`; otherwise its entry is skipped (no primitive, no error). -/
theorem draw_stars_point_iff {α : Type} [LinearOrderedField α]
    (altaz proj : α → α → α × α) (stars : List (ℕ × StarRecord α))
    (e : ℕ × StarPos α) (he : e ∈ calculate_star_positions altaz stars) :
    draw_stars proj (calculate_star_positions altaz stars)
      = (calculate_star_positions altaz stars).filterMap (emit_star proj) ∧
    (e.2.altitude, e.2.azimuth) = altaz e.2.ra e.2.dec ∧
    ((emit_star proj e).isSome = true ↔
      (0 < e.2.altitude ∧
       (proj e.2.altitude e.2.azimuth).1 ^ 2 + (proj e.2.altitude e.2.azimuth).2 ^ 2 ≤ 4)) := by
  obtain ⟨hvis, haa⟩ := mem_calculate_star_positions altaz stars e he
  refine ⟨rfl, haa, ?_⟩
  unfold emit_star
  rw [hvis]
  by_cases h : 0 < e.2.altitude
  · rw [decide_eq_true h]
    simp only [Bool.not_true, Bool.false_eq_true, if_false]
    by_cases h2 : (proj e.2.altitude e.2.azimuth).1 * (proj e.2.altitude e.2.azimuth).1
        + (proj e.2.altitude e.2.azimuth).2 * (proj e.2.altitude e.2.azimuth).2 > 4
    · rw [if_pos h2]
      simp only [Option.isSome_none, Bool.false_eq_true, false_iff]
      rintro ⟨-, hle⟩
      rw [pow_two, pow_two] at hle
      linarith
    · rw [if_neg h2]
      simp only [Option.isSome_some, true_iff]
      refine ⟨h, ?_⟩
      rw [pow_two, pow_two]
      exact not_lt.1 h2
  · rw [decide_eq_false h]
    simp [h]

/-- C3: a constellation edge yields a line segment exactly when both endpoint
ids resolve in the computed star-position mapping and both resolved entries
have positive altitude; a missing id or a non-visible endpoint makes the edge
contribute nothing (and raises no error). -/
theorem draw_constellation_lines_edge_iff {α : Type} [LinearOrderedField α]
    (altaz proj : α → α → α × α) (stars : List (ℕ × StarRecord α))
    (constellations : List (String × List (ℕ × ℕ))) (a b : ℕ) :
    draw_constellation_lines proj (calculate_star_positions altaz stars) constellations
      = (get_all_constellations constellations).flatMap (fun name =>
          (get_constellation_lines constellations name).filterMap
            (emit_edge proj (calculate_star_positions altaz stars))) ∧
    ((emit_edge proj (calculate_star_positions altaz stars) (a, b)).isSome = true ↔
      ((∃ p, (calculate_star_positions altaz stars).lookup a = some p ∧ 0 < p.altitude) ∧
       (∃ q, (calculate_star_positions altaz stars).lookup b = some q ∧ 0 < q.altitude))) := by
  refine ⟨rfl, ?_⟩
  unfold emit_edge
  cases hla : (calculate_star_positions altaz stars).lookup a with
  | none =>
    simp [hla]
  | some p =>
    cases hlb : (calculate_star_positions altaz stars).lookup b with
    | none => simp [hla, hlb]
    | some q =>
      have hp := lookup_calculate_star_positions altaz stars a p hla
      have hq := lookup_calculate_star_positions altaz stars b q hlb
      simp only [hla, hlb]
      by_cases hpv : 0 < p.altitude
      · by_cases hqv : 0 < q.altitude
        · simp [hp, hq, hpv, hqv]
        · simp [hp, hq, hpv, hqv]
      · simp [hp, hq, hpv]

/-- Witness for C2 over `ℚ`: one star whose transform gives altitude 1,
with a projection sending everything to `(1, 1)`. -/
theorem draw_stars_point_iff_witness :
    ((1, ⟨0, 0, 1, 0, 5, true⟩) : ℕ × StarPos ℚ) ∈
      calculate_star_positions (fun _ _ => ((1 : ℚ), 0)) [(1, ⟨0, 0, none⟩)] ∧
    (draw_stars (fun _ _ => ((1 : ℚ), 1))
        (calculate_star_positions (fun _ _ => ((1 : ℚ), 0)) [(1, ⟨0, 0, none⟩)])
      = (calculate_star_positions (fun _ _ => ((1 : ℚ), 0))
          [(1, ⟨0, 0, none⟩)]).filterMap (emit_star (fun _ _ => ((1 : ℚ), 1))) ∧
    (((1, ⟨0, 0, 1, 0, 5, true⟩) : ℕ × StarPos ℚ).2.altitude,
      ((1, ⟨0, 0, 1, 0, 5, true⟩) : ℕ × StarPos ℚ).2.azimuth) = ((1 : ℚ), 0) ∧
    ((emit_star (fun _ _ => ((1 : ℚ), 1))
        ((1, ⟨0, 0, 1, 0, 5, true⟩) : ℕ × StarPos ℚ)).isSome = true ↔
      (0 < ((1, ⟨0, 0, 1, 0, 5, true⟩) : ℕ × StarPos ℚ).2.altitude ∧
       ((1 : ℚ), 1).1 ^ 2 + ((1 : ℚ), 1).2 ^ 2 ≤ 4))) := by
  have hm : ((1, ⟨0, 0, 1, 0, 5, true⟩) : ℕ × StarPos ℚ) ∈
      calculate_star_positions (fun _ _ => ((1 : ℚ), 0)) [(1, ⟨0, 0, none⟩)] := by
    decide
  exact ⟨hm, draw_stars_point_iff _ _ _ _ hm⟩

/-- C7 counterexample: `np.linspace(0, 360, 2)` samples the closed interval,
so the azimuth list for 2 points is `[0, 360]` — and `360` is not in the
half-open interval `[0, 360)`; consequently both returned horizon points have
y-coordinate 1 (the second duplicates the first), where half-open uniform
sampling would put the second sample at azimuth 180. -/
theorem get_horizon_circle_closed_sampling :
    linspace 0 360 2 = [0, 360] ∧ ¬((360 : ℝ) < 360) ∧
    (get_horizon_circle 2).2 = [1, 1] := by
  have hl : linspace 0 360 2 = [0, 360] := by
    norm_num [linspace, List.range_succ]
  refine ⟨hl, by norm_num, ?_⟩
  show (linspace 0 360 2).map (fun az => (project_to_stereographic 0 az).2) = [1, 1]
  rw [hl]
  simp only [List.map_cons, List.map_nil]
  unfold project_to_stereographic radians
  dsimp only
  have h1 : (Real.pi / 2 - 0 * Real.pi / 180) / 2 = Real.pi / 4 := by ring
  have h2 : (360 : ℝ) * Real.pi / 180 = 2 * Real.pi := by ring
  have h3 : (0 : ℝ) * Real.pi / 180 = 0 := by ring
  rw [h1, h2, h3, Real.tan_pi_div_four, Real.cos_zero, Real.cos_two_pi]
  norm_num

/-- C7 (amended): the horizon boundary samples azimuth uniformly over the
closed interval [0°, 360°] (`linspace` keeps the endpoint), every sample lies
in [0, 360], both coordinate lists are the projections of those samples at
altitude 0, and every returned point lies on the unit circle.  The operation
is a function of `numPoints` alone by shape. -/
theorem get_horizon_circle_amended (n : ℕ) :
    linspace 0 360 n = (List.range n).map (fun i : ℕ => (360 : ℝ) * i / ((n : ℝ) - 1)) ∧
    (∀ az ∈ linspace 0 360 n, 0 ≤ az ∧ az ≤ 360) ∧
    (get_horizon_circle n).1
      = (linspace 0 360 n).map (fun az => (project_to_stereographic 0 az).1) ∧
    (get_horizon_circle n).2
      = (linspace 0 360 n).map (fun az => (project_to_stereographic 0 az).2) ∧
    List.Forall₂ (fun x y => x ^ 2 + y ^ 2 = (1 : ℝ))
      (get_horizon_circle n).1 (get_horizon_circle n).2 := by
  have h1 : linspace 0 360 n
      = (List.range n).map (fun i : ℕ => (360 : ℝ) * i / ((n : ℝ) - 1)) := by
    unfold linspace
    refine List.map_congr_left ?_
    intro i _
    ring
  refine ⟨h1, ?_, rfl, rfl, ?_⟩
  · intro az haz
    rw [h1] at haz
    obtain ⟨i, hi, rfl⟩ := List.mem_map.1 haz
    rw [List.mem_range] at hi
    rcases Nat.lt_or_ge n 2 with hn | hn
    · interval_cases n
      · exact absurd hi (by omega)
      · interval_cases i
        norm_num
    · have hd : (0 : ℝ) < (n : ℝ) - 1 := by
        have h2 : (2 : ℝ) ≤ (n : ℝ) := by exact_mod_cast hn
        linarith
      have hi' : (i : ℝ) ≤ (n : ℝ) - 1 := by
        have hle : (i : ℝ) + 1 ≤ (n : ℝ) := by exact_mod_cast hi
        linarith
      constructor
      · have hnum : (0 : ℝ) ≤ 360 * (i : ℝ) := by positivity
        exact div_nonneg hnum hd.le
      · rw [div_le_iff₀ hd]
        nlinarith [hi']
  · show List.Forall₂ _
      ((linspace 0 360 n).map (fun az => (project_to_stereographic 0 az).1))
      ((linspace 0 360 n).map (fun az => (project_to_stereographic 0 az).2))
    induction linspace 0 360 n with
    | nil => exact List.Forall₂.nil
    | cons a l ih => exact List.Forall₂.cons (normSq_project_zero a) ih

/-- Witness for C7's amended statement at `numPoints = 2`, sample 360. -/
theorem get_horizon_circle_amended_witness :
    (360 : ℝ) ∈ linspace 0 360 2 ∧ (0 ≤ (360 : ℝ) ∧ (360 : ℝ) ≤ 360) := by
  have hm : (360 : ℝ) ∈ linspace 0 360 2 := by
    norm_num [linspace, List.range_succ]
  exact ⟨hm, (get_horizon_circle_amended 2).2.1 360 hm⟩

/-- C8: the chart composition is deterministic — identical transform, catalog
contents, constellations, and location give identical primitive sequences
(the embedding is a pure function with no hidden state). -/
theorem render_sky_deterministic (f g : ℝ → ℝ → ℝ × ℝ)
    (s t : List (ℕ × StarRecord ℝ)) (c d : List (String × List (ℕ × ℕ)))
    (la lb lo lp : ℝ)
    (hf : f = g) (hs : s = t) (hc : c = d) (hla : la = lb) (hlo : lo = lp) :
    render_sky f s c la lo = render_sky g t d lb lp := by
  subst hf hs hc hla hlo
  rfl

/-- Witness for C8 at a concrete empty catalog. -/
theorem render_sky_deterministic_witness :
    ((fun (_ _ : ℝ) => ((0 : ℝ), (0 : ℝ))) = (fun _ _ => (0, 0)) ∧
     ([] : List (ℕ × StarRecord ℝ)) = [] ∧
     ([] : List (String × List (ℕ × ℕ))) = [] ∧
     (0 : ℝ) = 0 ∧ (0 : ℝ) = 0) ∧
    render_sky (fun _ _ => (0, 0)) [] [] 0 0
      = render_sky (fun _ _ => (0, 0)) [] [] 0 0 :=
  ⟨⟨rfl, rfl, rfl, rfl, rfl⟩,
   render_sky_deterministic _ _ _ _ _ _ _ _ _ _ rfl rfl rfl rfl rfl⟩

end ConstellationViewer
